import Mathlib

/-!
# FarmBnB booking admission, pricing and lifecycle — Lean embedding

Shallow embedding of the booking core of the FarmBnB repository:
the `POST /api/bookings` handler (admission checks and inline pricing),
the lifecycle routes (`/:id/confirm`, `/:id/cancel`, `/:id/complete`)
and the manual-payment routes (`/api/payments/create-intent`,
`/api/payments/confirm`).

Currency amounts are modelled exactly as rationals (ℚ); JavaScript
`Date` values are modelled as a calendar day (an integer day index)
plus milliseconds within the day, so that `checkOut − checkIn` is the
millisecond difference of the two timestamps and `toDateString`
equality is equality of the day index.  Database rows are records;
an update is a functional record patch; a handler that responds with
an error status leaves the store untouched.
-/

namespace FarmBnB

/-- Milliseconds in one day, the divisor in the nights computation. -/
def dayMs : Int := 86400000

/-- A JavaScript `Date`: a calendar day index plus milliseconds within
the day.  `toDateString` equality is equality of `day`. -/
structure DateTime where
  day : Int
  ms : Int
deriving DecidableEq, Repr

/-- Timestamp of a `DateTime` in milliseconds (value of `Date - Date`
arithmetic). -/
def ts (d : DateTime) : Int := d.day * dayMs + d.ms

/-- `bookings.status` column values. -/
inductive BStatus where
  | pending
  | confirmed
  | cancelled
  | completed
deriving DecidableEq, Repr

/-- `bookings.verification_status` column values (the column is
nullable; `Option` models null). -/
inductive VStatus where
  | pending
  | approved
  | rejected
deriving DecidableEq, Repr

/-- A row of the `properties` table, the fields the booking route
reads. -/
structure Property where
  is_active : Bool
  max_guests : Int
  base_price_per_night : ℚ
  per_head_charge : ℚ
  cleaning_fee : ℚ
  service_fee : ℚ
deriving DecidableEq, Repr

/-- A row of the `bookings` table, the fields the booking and payment
routes read or write. -/
structure Booking where
  property_id : Nat
  customer_id : Nat
  check_in_day : Int
  check_out_day : Int
  num_guests : Int
  base_amount : ℚ
  guest_charges : ℚ
  extra_fees : ℚ
  total_amount : ℚ
  advance_paid : ℚ
  status : BStatus
  verification_status : Option VStatus
  food_required : Bool
  payment_method : Option String
  manual_reference : Option String
  payment_screenshot_url : Option String
deriving DecidableEq, Repr

/-- `Number(x.toFixed(2))` / `Math.round(x * 100) / 100` on an exact
rational: round to 2 decimal places, halves away from zero for the
non-negative amounts that occur here. -/
def round2 (q : ℚ) : ℚ := ((⌊q * 100 + 1/2⌋ : ℤ) : ℚ) / 100

/-- `Math.ceil((checkOutDate - checkInDate) / (1000*60*60*24))` — the
nights computation of the booking route (no minimum clamp appears in
the source). -/
def nightsOf (checkIn checkOut : DateTime) : Int :=
  ⌈((ts checkOut - ts checkIn : Int) : ℚ) / (dayMs : ℚ)⌉

/-- Body of a `POST /api/bookings` request, after express-validator
shape checks (dates parse, guests is an integer). -/
structure CreateReq where
  propertyId : Nat
  checkIn : DateTime
  checkOut : DateTime
  numberOfGuests : Int
  foodRequired : Bool
deriving DecidableEq, Repr

/-- Environment of a `POST /api/bookings` request: the authenticated
user, the phone lookups, the clock, the fetched property row and the
stored bookings the conflict query ranges over. -/
structure CreateCtx where
  uid : Nat
  hasFirebasePhone : Bool
  hasProfilePhone : Bool
  phoneLookupFailed : Bool
  now : Int
  property : Option Property
  existing : List Booking
deriving Repr

def msgGuests : String := "Number of guests must be at least 1"
def msgPhone : String :=
  "Phone number required. Please add your phone number in your profile before making a booking."
def msgInactive : String := "Property is not available for booking"
def msgCapacity : String := "Maximum guests allowed"
def msgSameDay : String := "Same-day bookings only."
def msgPast : String := "Check-in date cannot be in the past"
def msgConflict : String := "Property is already booked for these dates"

/-- The conflict filter of the availability query: same property,
status in {pending, confirmed}, `check_in_date ≤ requested checkOut`
and `check_out_date ≥ requested checkIn` (stored dates are `date`
columns, so the comparison is on day indices). -/
def conflictsWith (propertyId : Nat) (checkIn checkOut : DateTime) (b : Booking) : Bool :=
  b.property_id = propertyId &&
  (b.status = BStatus.pending || b.status = BStatus.confirmed) &&
  b.check_in_day ≤ checkOut.day &&
  b.check_out_day ≥ checkIn.day

/-- The `POST /api/bookings` handler: express-validator guest check,
phone-number check (best-effort: a failed lookup allows the request
through), property fetch and `is_active` gate, capacity check,
same-day stay-shape check, past-date check, availability conflict
check, then the inline pricing computation and the insert.  The
inserted row takes the database default `verification_status =
'pending'`. -/
def createBooking (ctx : CreateCtx) (req : CreateReq) : Except String Booking :=
  if req.numberOfGuests < 1 then .error msgGuests
  else if ¬ctx.phoneLookupFailed ∧ ¬ctx.hasFirebasePhone ∧ ¬ctx.hasProfilePhone then
    .error msgPhone
  else
    match ctx.property with
    | none => .error msgInactive
    | some property =>
      if property.is_active ≠ true then .error msgInactive
      else if req.numberOfGuests >
          (if property.max_guests = 0 then 1 else property.max_guests) then
        .error msgCapacity
      else if req.checkIn.day ≠ req.checkOut.day then .error msgSameDay
      else if ts req.checkIn < ctx.now then .error msgPast
      else if ctx.existing.any (conflictsWith req.propertyId req.checkIn req.checkOut) then
        .error msgConflict
      else
        let nights := nightsOf req.checkIn req.checkOut
        let subtotal := property.base_price_per_night * nights
        let guestCharges := property.per_head_charge * req.numberOfGuests * nights
        let foodCharge : ℚ :=
          if req.foodRequired then (req.numberOfGuests : ℚ) * 500 * nights else 0
        let totalAmount :=
          subtotal + guestCharges + foodCharge + property.cleaning_fee + property.service_fee
        let advanceAmount := round2 (totalAmount * (1/2))
        .ok {
          property_id := req.propertyId
          customer_id := ctx.uid
          check_in_day := req.checkIn.day
          check_out_day := req.checkOut.day
          num_guests := req.numberOfGuests
          base_amount := subtotal
          guest_charges := guestCharges
          extra_fees := property.cleaning_fee + property.service_fee + foodCharge
          total_amount := totalAmount
          advance_paid := advanceAmount
          status := BStatus.pending
          verification_status := some VStatus.pending
          food_required := req.foodRequired
          payment_method := none
          manual_reference := none
          payment_screenshot_url := none
        }

def msgNotPending : String := "Booking is not in pending status"
def msgCannotCancel : String := "Booking cannot be cancelled"
def msgOnlyConfirmed : String := "Only confirmed bookings can be marked as completed"

/-- `PUT /api/bookings/:id/confirm`: guard `status === 'pending'`,
then `update({ status: 'confirmed' })`. -/
def confirmBooking (b : Booking) : Except String Booking :=
  if b.status ≠ BStatus.pending then .error msgNotPending
  else .ok { b with status := BStatus.confirmed }

/-- `PUT /api/bookings/:id/cancel`: guard rejecting when the status is
already `cancelled` or `completed`, then `update({ status: 'cancelled' })`. -/
def cancelBooking (b : Booking) : Except String Booking :=
  if b.status = BStatus.cancelled ∨ b.status = BStatus.completed then .error msgCannotCancel
  else .ok { b with status := BStatus.cancelled }

/-- `PUT /api/bookings/:id/complete`: guard `status === 'confirmed'`,
then `update({ status: 'completed' })`. -/
def completeBooking (b : Booking) : Except String Booking :=
  if b.status ≠ BStatus.confirmed then .error msgOnlyConfirmed
  else .ok { b with status := BStatus.completed }

def msgIdProof : String := "ID proof not approved yet. Please wait for admin approval."

/-- The payment routes' guard `booking.verification_status &&
booking.verification_status !== 'approved'`: a null column is falsy
and passes; any other value must be `'approved'`. -/
def idProofBlocked (b : Booking) : Bool :=
  match b.verification_status with
  | some v => v != VStatus.approved
  | none => false
def msgCancelledPayment : String := "Cannot process payment for cancelled booking"
def msgAdvanceDone : String := "Advance payment already completed"

/-- `POST /api/payments/create-intent`: ID-proof approval guard
(`verification_status` truthy and not `'approved'` rejects), cancelled
guard, then `amountToPay = max(advanceTarget − advance_paid, 0)` with
`advanceTarget = round(total × 0.5, 2dp)`; a non-positive amount
rejects, otherwise the amount is returned. -/
def createIntent (b : Booking) : Except String ℚ :=
  if idProofBlocked b then .error msgIdProof
  else if b.status = BStatus.cancelled then .error msgCancelledPayment
  else
    let advanceTarget := round2 (b.total_amount * (1/2))
    let amountToPay := max (advanceTarget - b.advance_paid) 0
    if amountToPay ≤ 0 then .error msgAdvanceDone
    else .ok amountToPay

/-- `POST /api/payments/confirm` (manual payment submission): ID-proof
approval guard only — the route has no booking-status guard — then an
update that adds the submitted amount to `advance_paid`, sets
`payment_method = 'manual'`, and records the reference (when
non-empty) and the screenshot URL (when uploaded).  The status field
is not part of the update. -/
def confirmPayment (b : Booking) (amount : ℚ) (referenceId : String)
    (screenshotUrl : Option String) : Except String Booking :=
  if idProofBlocked b then .error msgIdProof
  else
    .ok { b with
      advance_paid := b.advance_paid + amount
      payment_method := some "manual"
      manual_reference := if referenceId ≠ "" then some referenceId else b.manual_reference
      payment_screenshot_url :=
        match screenshotUrl with
        | some u => some u
        | none => b.payment_screenshot_url }

deriving instance DecidableEq for Except

/-! ## Concrete fixtures

The property of spec §8 example 1 (`basePricePerNight=2000`,
`perHeadPrice=200`, `cleaningFee=100`, `serviceFee=50`,
`maxGuests=10`), a request for 4 guests on a single day (both request
dates parse to the same timestamp, as the client sends the same date
string for check-in and check-out), and the row the handler inserts
for them. -/

def p1 : Property :=
  { is_active := true, max_guests := 10, base_price_per_night := 2000,
    per_head_charge := 200, cleaning_fee := 100, service_fee := 50 }

def ctx1 : CreateCtx :=
  { uid := 7, hasFirebasePhone := true, hasProfilePhone := false,
    phoneLookupFailed := false, now := 0, property := some p1, existing := [] }

def req1 : CreateReq :=
  { propertyId := 1, checkIn := ⟨20000, 0⟩, checkOut := ⟨20000, 0⟩,
    numberOfGuests := 4, foodRequired := false }

/-- The row `createBooking ctx1 req1` inserts. -/
def row1 : Booking :=
  { property_id := 1, customer_id := 7, check_in_day := 20000, check_out_day := 20000,
    num_guests := 4, base_amount := 0, guest_charges := 0, extra_fees := 150,
    total_amount := 150, advance_paid := 75, status := BStatus.pending,
    verification_status := some VStatus.pending, food_required := false,
    payment_method := none, manual_reference := none, payment_screenshot_url := none }

/-- A generic persisted booking used to instantiate lifecycle
theorems. -/
def b0 : Booking :=
  { property_id := 1, customer_id := 7, check_in_day := 20000, check_out_day := 20000,
    num_guests := 4, base_amount := 2000, guest_charges := 800, extra_fees := 150,
    total_amount := 2950, advance_paid := 1475, status := BStatus.pending,
    verification_status := some VStatus.approved, food_required := false,
    payment_method := none, manual_reference := none, payment_screenshot_url := none }

/-! ## Claims -/

/-- Helper: the value `createBooking` produces on the fixture request. -/
theorem createBooking_ctx1_req1 : createBooking ctx1 req1 = Except.ok row1 := by
  norm_num [createBooking, ctx1, req1, p1, row1, nightsOf, ts, dayMs, round2, conflictsWith]

/-- C1: the spec expects a same-day booking at rates 2000/200/100/50
with 4 guests to persist baseAmount=2000, guestCharges=800,
extraFees=150, totalAmount=2950, advance 1475.  The handler computes
`nights = ceil((checkOut − checkIn)/1 day)` with no minimum clamp, and
the client sends identical check-in and check-out timestamps for a
same-day stay, so nights = 0 and the persisted breakdown is
baseAmount=0, guestCharges=0, extraFees=150, totalAmount=150,
advance_paid=75. -/
theorem sameday_breakdown_at_spec_rates :
    createBooking ctx1 req1 = Except.ok row1 ∧
    row1.base_amount = 0 ∧ row1.guest_charges = 0 ∧ row1.extra_fees = 150 ∧
    row1.total_amount = 150 ∧ row1.advance_paid = 75 := by
  refine ⟨?_, rfl, rfl, rfl, rfl, rfl⟩
  norm_num [createBooking, ctx1, req1, p1, row1, nightsOf, ts, dayMs, round2, conflictsWith]

/-- C2: the spec states nights = ceil((checkOut − checkIn)/1 day)
clamped to a minimum of 1, so that equal check-in and check-out dates
give nights = 1 and baseAmount = basePricePerNight.  The source has no
clamp: equal timestamps give nights = 0 for every date, and the
persisted base amount is 0. -/
theorem nights_no_min_clamp :
    (∀ d : DateTime, nightsOf d d = 0) ∧
    Except.map Booking.base_amount (createBooking ctx1 req1) = Except.ok 0 := by
  constructor
  · intro d
    simp [nightsOf]
  · norm_num [createBooking, ctx1, req1, p1, nightsOf, ts, dayMs, round2, conflictsWith,
      Except.map]

/-- C4: lifecycle guards — `cancel` errors when the status is already
cancelled or completed, `complete` errors unless the status is exactly
confirmed, `confirm` errors unless the status is exactly pending; an
error response performs no update, so the stored status is unchanged. -/
theorem lifecycle_guard_monotonicity (b : Booking) :
    ((b.status = BStatus.cancelled ∨ b.status = BStatus.completed) →
      cancelBooking b = Except.error msgCannotCancel)
    ∧ (b.status ≠ BStatus.confirmed → completeBooking b = Except.error msgOnlyConfirmed)
    ∧ (b.status ≠ BStatus.pending → confirmBooking b = Except.error msgNotPending) := by
  refine ⟨fun h => ?_, fun h => ?_, fun h => ?_⟩
  · unfold cancelBooking
    rw [if_pos h]
  · unfold completeBooking
    rw [if_pos h]
  · unfold confirmBooking
    rw [if_pos h]

/-- Witness for C4 at concrete bookings in each guarded state. -/
theorem lifecycle_guard_monotonicity_witness :
    cancelBooking { b0 with status := BStatus.cancelled } = Except.error msgCannotCancel ∧
    completeBooking { b0 with status := BStatus.pending } = Except.error msgOnlyConfirmed ∧
    confirmBooking { b0 with status := BStatus.confirmed } = Except.error msgNotPending :=
  ⟨(lifecycle_guard_monotonicity _).1 (Or.inl rfl),
   (lifecycle_guard_monotonicity _).2.1 (by decide),
   (lifecycle_guard_monotonicity _).2.2 (by decide)⟩

/-- C10: when its guard passes, each lifecycle route updates only the
`status` field — the result is the old row with `status` replaced —
and in particular cancelling leaves `advance_paid` (and every pricing,
date, guest, verification and payment field) untouched. -/
theorem status_update_frame (b : Booking) :
    (b.status = BStatus.pending →
      confirmBooking b = Except.ok { b with status := BStatus.confirmed })
    ∧ (¬(b.status = BStatus.cancelled ∨ b.status = BStatus.completed) →
      cancelBooking b = Except.ok { b with status := BStatus.cancelled })
    ∧ (b.status = BStatus.confirmed →
      completeBooking b = Except.ok { b with status := BStatus.completed })
    ∧ (∀ b', cancelBooking b = Except.ok b' →
        b'.advance_paid = b.advance_paid ∧ b'.total_amount = b.total_amount ∧
        b'.base_amount = b.base_amount ∧ b'.guest_charges = b.guest_charges ∧
        b'.extra_fees = b.extra_fees ∧ b'.check_in_day = b.check_in_day ∧
        b'.check_out_day = b.check_out_day ∧ b'.num_guests = b.num_guests ∧
        b'.verification_status = b.verification_status ∧
        b'.payment_method = b.payment_method ∧
        b'.manual_reference = b.manual_reference ∧
        b'.payment_screenshot_url = b.payment_screenshot_url) := by
  refine ⟨fun h => ?_, fun h => ?_, fun h => ?_, fun b' h => ?_⟩
  · unfold confirmBooking
    rw [if_neg (by simp [h])]
  · unfold cancelBooking
    rw [if_neg h]
  · unfold completeBooking
    rw [if_neg (by simp [h])]
  · unfold cancelBooking at h
    split at h
    · cases h
    · cases h
      simp

/-- Witness for C10 at a concrete pending, then confirmed, booking. -/
theorem status_update_frame_witness :
    confirmBooking b0 = Except.ok { b0 with status := BStatus.confirmed } ∧
    cancelBooking b0 = Except.ok { b0 with status := BStatus.cancelled } ∧
    completeBooking { b0 with status := BStatus.confirmed } =
      Except.ok { b0 with status := BStatus.completed } :=
  ⟨(status_update_frame b0).1 rfl,
   (status_update_frame b0).2.1 (by decide),
   (status_update_frame { b0 with status := BStatus.confirmed }).2.2.1 rfl⟩

/-- A same-day request for 4 guests on day `D` against the fixture
property. -/
def req3 (D : Int) : CreateReq :=
  { propertyId := 1, checkIn := ⟨D, 0⟩, checkOut := ⟨D, 0⟩,
    numberOfGuests := 4, foodRequired := false }

/-- A stored booking for the fixture property on day `D` with status
`s`. -/
def existing3 (D : Int) (s : BStatus) : Booking :=
  { b0 with check_in_day := D, check_out_day := D, status := s }

/-- The request environment for the overlap scenario: clock at `now`,
fixture property, one stored booking on day `D` with status `s`. -/
def ctx3 (now D : Int) (s : BStatus) : CreateCtx :=
  { uid := 7, hasFirebasePhone := true, hasProfilePhone := false,
    phoneLookupFailed := false, now := now, property := some p1,
    existing := [existing3 D s] }

/-- C3: with an existing pending or confirmed booking for the property
on day `D`, a second request for day `D` is rejected with the
"already booked" admission error via the inclusive overlap test; a
request for day `D+1`, or one against only cancelled/completed
bookings, passes the check and a booking is created. -/
theorem overlap_admission (D now : Int) (s : BStatus)
    (hs : s = BStatus.pending ∨ s = BStatus.confirmed)
    (hnow : now ≤ D * dayMs) :
    createBooking (ctx3 now D s) (req3 D) = Except.error msgConflict
    ∧ (∃ b, createBooking (ctx3 now D s) (req3 (D + 1)) = Except.ok b)
    ∧ (∀ s', (s' = BStatus.cancelled ∨ s' = BStatus.completed) →
        ∃ b, createBooking (ctx3 now D s') (req3 D) = Except.ok b) := by
  have hpast : ¬(ts (⟨D, 0⟩ : DateTime) < now) := by
    simp only [ts, dayMs] at *
    omega
  have hpast' : ¬(ts (⟨D + 1, 0⟩ : DateTime) < now) := by
    simp only [ts, dayMs] at *
    omega
  have hD : ¬(D + 1 ≤ D) := by omega
  refine ⟨?_, ?_, fun s' hs' => ?_⟩
  · rcases hs with h | h <;> subst h <;>
      norm_num [createBooking, ctx3, req3, existing3, p1, b0, conflictsWith, hpast]
  · rcases hs with h | h <;> subst h <;>
      norm_num [createBooking, ctx3, req3, existing3, p1, b0, conflictsWith, hpast', hD]
  · rcases hs' with h | h <;> subst h <;>
      norm_num [createBooking, ctx3, req3, existing3, p1, b0, conflictsWith, hpast] <;>
      simp

/-- Witness for C3: day 20000, clock at 0, existing booking pending. -/
theorem overlap_admission_witness :
    (BStatus.pending = BStatus.pending ∨ BStatus.pending = BStatus.confirmed) ∧
    (0 : Int) ≤ 20000 * dayMs ∧
    createBooking (ctx3 0 20000 BStatus.pending) (req3 20000) = Except.error msgConflict :=
  ⟨Or.inl rfl, by norm_num [dayMs],
   (overlap_admission 20000 0 BStatus.pending (Or.inl rfl) (by norm_num [dayMs])).1⟩

/-- A booking whose ID proofs are approved but which has been
cancelled. -/
def b5c : Booking :=
  { b0 with status := BStatus.cancelled, verification_status := some VStatus.approved }

/-- Counterexample for C5: the manual payment-confirmation route has
no booking-status guard, so a payment submission on a cancelled
(approved) booking succeeds and increments `advance_paid` — the claim
that `submitPayment` succeeds only when the status is not cancelled is
false. -/
theorem submitPayment_on_cancelled_succeeds :
    b5c.status = BStatus.cancelled ∧
    confirmPayment b5c 100 "TXN1" (some "https://x/shot.png") =
      Except.ok { b5c with
        advance_paid := 1575, payment_method := some "manual",
        manual_reference := some "TXN1",
        payment_screenshot_url := some "https://x/shot.png" } := by
  refine ⟨rfl, ?_⟩
  norm_num [confirmPayment, idProofBlocked, b5c, b0,
    show ("TXN1" : String) ≠ "" from by decide]

/-- C5 (amended): `submitPayment` is rejected with the ID-proof error
whenever `verificationStatus` is pending (or rejected); when it is
approved the submission succeeds regardless of the booking status,
incrementing `advance_paid` by exactly the submitted amount,
recording the non-empty reference and the supplied screenshot URL,
and leaving the status field untouched. -/
theorem submitPayment_behavior (b : Booking) (amount : ℚ) (ref : String)
    (url : Option String) :
    (b.verification_status = some VStatus.pending →
      confirmPayment b amount ref url = Except.error msgIdProof)
    ∧ (b.verification_status = some VStatus.approved →
      ∃ b', confirmPayment b amount ref url = Except.ok b' ∧
        b'.advance_paid = b.advance_paid + amount ∧
        b'.status = b.status ∧
        b'.payment_method = some "manual" ∧
        (ref ≠ "" → b'.manual_reference = some ref) ∧
        (∀ u, url = some u → b'.payment_screenshot_url = some u)) := by
  constructor
  · intro h
    simp [confirmPayment, idProofBlocked, h]
  · intro h
    refine ⟨{ b with
        advance_paid := b.advance_paid + amount
        payment_method := some "manual"
        manual_reference := if ref ≠ "" then some ref else b.manual_reference
        payment_screenshot_url :=
          match url with
          | some u => some u
          | none => b.payment_screenshot_url },
      ?_, rfl, rfl, rfl, fun hr => ?_, fun u hu => ?_⟩
    · simp [confirmPayment, idProofBlocked, h]
    · simp [hr]
    · subst hu
      rfl

/-- Witness for C5 at a pending-verification and an approved
booking. -/
theorem submitPayment_behavior_witness :
    confirmPayment { b0 with verification_status := some VStatus.pending } 100 "T" none =
      Except.error msgIdProof ∧
    (∃ b', confirmPayment b0 100 "T" none = Except.ok b' ∧
      b'.advance_paid = b0.advance_paid + 100 ∧
      b'.status = b0.status ∧
      b'.payment_method = some "manual" ∧
      ("T" ≠ "" → b'.manual_reference = some "T") ∧
      (∀ u, (none : Option String) = some u → b'.payment_screenshot_url = some u)) :=
  ⟨(submitPayment_behavior _ 100 "T" none).1 rfl,
   (submitPayment_behavior b0 100 "T" none).2 rfl⟩

/-- The fixture property with a negative cleaning fee. -/
def p6 : Property := { p1 with cleaning_fee := -5 }

def ctx6 : CreateCtx := { ctx1 with property := some p6 }

/-- Counterexample for C6: a request whose computed nights is 0 (equal
check-in and check-out timestamps) against a property with a negative
cleaning fee is not rejected — the handler validates neither the
nights nor the signs of the rates, and a booking is persisted. -/
theorem pricing_no_nights_or_rate_guard :
    nightsOf req1.checkIn req1.checkOut = 0 ∧ p6.cleaning_fee < 0 ∧
    ∃ b, createBooking ctx6 req1 = Except.ok b := by
  refine ⟨by norm_num [nightsOf, ts, dayMs, req1], by norm_num [p6, p1], ?_⟩
  norm_num [createBooking, ctx6, ctx1, req1, p6, p1, conflictsWith, ts, dayMs]

/-- C6 (amended): of the spec's three pricing preconditions only the
guest count is enforced — a request with `numberOfGuests < 1` is
rejected by the request validator before any other processing. -/
theorem guest_count_guard (ctx : CreateCtx) (req : CreateReq)
    (h : req.numberOfGuests < 1) :
    createBooking ctx req = Except.error msgGuests := by
  unfold createBooking
  rw [if_pos h]

/-- Witness for C6 at a request for 0 guests. -/
theorem guest_count_guard_witness :
    ({ req1 with numberOfGuests := 0 } : CreateReq).numberOfGuests < 1 ∧
    createBooking ctx1 { req1 with numberOfGuests := 0 } = Except.error msgGuests :=
  ⟨by norm_num [req1], guest_count_guard ctx1 _ (by norm_num [req1])⟩

/-- A request context with no phone number anywhere and a successful
phone lookup. -/
def ctx7 : CreateCtx :=
  { uid := 7, hasFirebasePhone := false, hasProfilePhone := false,
    phoneLookupFailed := false, now := 0, property := some p1, existing := [] }

/-- A request exceeding the fixture property's capacity. -/
def req7 : CreateReq := { req1 with numberOfGuests := 12 }

/-- Counterexample for C7: a request that violates both the capacity
rule (12 > 10 guests) and the phone rule is rejected with the
missing-phone message, not the capacity message — the phone check runs
first, not last. -/
theorem phone_check_not_last :
    req7.numberOfGuests > p1.max_guests ∧
    createBooking ctx7 req7 = Except.error msgPhone ∧
    msgPhone ≠ msgCapacity := by
  refine ⟨by norm_num [req7, req1, p1], ?_, by decide⟩
  norm_num [createBooking, ctx7, req7, req1]

/-- C7 (amended): the phone-number check is the first admission check
after request-shape validation — whenever the requester has no phone
number on file and the lookup succeeded, the request is rejected with
the missing-phone message regardless of any other violation. -/
theorem phone_check_first (ctx : CreateCtx) (req : CreateReq)
    (h1 : 1 ≤ req.numberOfGuests)
    (h2 : ctx.phoneLookupFailed = false)
    (h3 : ctx.hasFirebasePhone = false)
    (h4 : ctx.hasProfilePhone = false) :
    createBooking ctx req = Except.error msgPhone := by
  unfold createBooking
  rw [if_neg (by omega), if_pos (by simp [h2, h3, h4])]

/-- Witness for C7 at the concrete no-phone over-capacity request. -/
theorem phone_check_first_witness :
    (1 : Int) ≤ req7.numberOfGuests ∧ ctx7.phoneLookupFailed = false ∧
    ctx7.hasFirebasePhone = false ∧ ctx7.hasProfilePhone = false ∧
    createBooking ctx7 req7 = Except.error msgPhone :=
  ⟨by norm_num [req7, req1], rfl, rfl, rfl,
   phone_check_first ctx7 req7 (by norm_num [req7, req1]) rfl rfl rfl⟩

/-- C8: every breakdown the booking-creation handler persists
satisfies `total_amount = base_amount + guest_charges + extra_fees`
exactly, with `extra_fees = cleaningFee + serviceFee + foodCharges`
and `foodCharges = 500 × numGuests × nights` when food is required,
else 0. -/
theorem total_decomposition (ctx : CreateCtx) (req : CreateReq) (p : Property) (b : Booking)
    (hp : ctx.property = some p)
    (h : createBooking ctx req = Except.ok b) :
    b.total_amount = b.base_amount + b.guest_charges + b.extra_fees
    ∧ b.extra_fees = p.cleaning_fee + p.service_fee +
        (if req.foodRequired then
          (req.numberOfGuests : ℚ) * 500 * (nightsOf req.checkIn req.checkOut : ℤ)
        else 0) := by
  cases hf : req.foodRequired with
  | false =>
    simp only [createBooking, hp, hf, Bool.false_eq_true, if_false] at h
    repeat' split at h
    any_goals exact Except.noConfusion h
    all_goals
      injection h with h2
      subst h2
      refine ⟨by dsimp only; ring, ?_⟩
      dsimp only
      simp [hf]
      try ring
  | true =>
    simp only [createBooking, hp, hf, if_true] at h
    repeat' split at h
    any_goals exact Except.noConfusion h
    all_goals
      injection h with h2
      subst h2
      refine ⟨by dsimp only; ring, ?_⟩
      dsimp only
      simp [hf]
      try ring

/-- Witness for C8 at the fixture booking. -/
theorem total_decomposition_witness :
    ctx1.property = some p1 ∧ createBooking ctx1 req1 = Except.ok row1 ∧
    (row1.total_amount = row1.base_amount + row1.guest_charges + row1.extra_fees ∧
     row1.extra_fees = p1.cleaning_fee + p1.service_fee +
       (if req1.foodRequired then
         (req1.numberOfGuests : ℚ) * 500 * (nightsOf req1.checkIn req1.checkOut : ℤ)
       else 0)) :=
  ⟨rfl, createBooking_ctx1_req1,
   total_decomposition ctx1 req1 p1 row1 rfl createBooking_ctx1_req1⟩

/-- Counterexample for C9: immediately after a successful
`createBooking`, the first call to the payment create-intent operation
is rejected with the ID-proof message — not with "Advance payment
already completed" as the claim states — because the inserted row
carries the database default `verification_status = 'pending'`, which
the create-intent route checks before computing the amount. -/
theorem fresh_booking_intent_rejected_for_idproof :
    createBooking ctx1 req1 = Except.ok row1 ∧
    createIntent row1 = Except.error msgIdProof ∧
    msgIdProof ≠ msgAdvanceDone :=
  ⟨createBooking_ctx1_req1, by simp [createIntent, idProofBlocked, row1], by decide⟩

/-- C9 (amended): a booking persisted by `createBooking` has
`advance_paid` already equal to the advance target
(0.5 × total, rounded to 2 decimal places), not 0; a create-intent
call on the fresh row is rejected with the ID-proof message (the
default verification status is pending), and once the verification
status is approved the create-intent call computes
`amountToPay = max(target − advance_paid, 0) = 0` and is rejected with
"Advance payment already completed". -/
theorem advance_initialized_to_target (ctx : CreateCtx) (req : CreateReq) (b : Booking)
    (h : createBooking ctx req = Except.ok b) :
    b.advance_paid = round2 (b.total_amount * (1/2))
    ∧ createIntent b = Except.error msgIdProof
    ∧ createIntent { b with verification_status := some VStatus.approved } =
        Except.error msgAdvanceDone := by
  simp only [createBooking] at h
  repeat' split at h
  any_goals exact Except.noConfusion h
  all_goals
    simp only [Except.ok.injEq] at h
    subst h
    refine ⟨rfl, by simp [createIntent, idProofBlocked], ?_⟩
    simp [createIntent, idProofBlocked, sub_self, max_self]

/-- Witness for C9 at the fixture booking. -/
theorem advance_initialized_to_target_witness :
    createBooking ctx1 req1 = Except.ok row1 ∧
    (row1.advance_paid = round2 (row1.total_amount * (1/2)) ∧
     createIntent row1 = Except.error msgIdProof ∧
     createIntent { row1 with verification_status := some VStatus.approved } =
       Except.error msgAdvanceDone) :=
  ⟨createBooking_ctx1_req1,
   advance_initialized_to_target ctx1 req1 row1 createBooking_ctx1_req1⟩

end FarmBnB
